import Mathlib

/-!
Verification development for the deploy-neex deployment orchestration engine.

The TypeScript sources are shallowly embedded:
* `DeployConfig` / `NeexProject` mirror `src/types.ts`;
* pure string generation (`PM2Generator.generateEcosystemConfig`,
  `NginxGenerator.generateNginxConfig`, management scripts, the `.env`
  template, the post-deployment report) is embedded as pure Lean functions;
* stateful code (`SystemUtils`, `Deployer.deploy` and its steps,
  `PM2Generator` / `NginxGenerator` lifecycle methods) is embedded in a
  state-passing monad `M` over an explicit `World` holding the file system,
  the set of PATH-resolvable commands, oracles for external-command success
  and for the free-port probe, and the logs (warnings, errors, console
  output) plus a trace of pipeline steps entered.

Literal braces of the generated nginx/PM2 text are written with the escapes
\x7b and \x7d, and literal apostrophes with \x27.
-/

/-- Mirrors `DeployConfig` from `src/types.ts`. -/
structure DeployConfig where
  projectName : String
  domain : String
  ssl : Bool
  email : Option String
  clientPort : Nat
  serverPort : Nat
  packageManager : String
  environment : String
  autoStart : Bool
  nginxConfig : Bool
deriving Repr, DecidableEq

/-- Mirrors `NeexProject` from `src/types.ts`. -/
structure NeexProject where
  hasClient : Bool
  hasServer : Bool
  clientPath : String
  serverPath : String
  rootPath : String
  packageManager : String
deriving Repr, DecidableEq

/-- The pipeline steps of `Deployer.deploy` (`src/deployer.ts`), in the order
the method invokes them, plus the terminal `done` state reached when the
final success banner is printed. -/
inductive Step where
  | checkPrerequisites
  | build
  | materializeEnv
  | setupSupervisor
  | setupProxy
  | manageScripts
  | verify
  | done
deriving Repr, DecidableEq

/-- The host state threaded through the embedded stateful code.
`commands` is the set of names resolvable by `which` (used by
`SystemUtils.checkCommand`); `files` is the file system as an association
list from path to content; `execOk` is the success oracle for
`SystemUtils.executeCommand` (external processes); `probe` is the
`detect-port` oracle used by `SystemUtils.isPortAvailable` (`Except.error`
models a probing failure); `os` is the value `SystemUtils.getOS` returns.
`warnings`, `errors` and `out` collect `logger.warning`, `logger.error` and
`console.log` output; `trace` records each pipeline step entered. -/
structure World where
  commands : List String
  files : List (String × String)
  execOk : String → List String → Bool
  probe : Nat → Except Unit Nat
  os : String
  warnings : List String
  errors : List String
  out : List String
  trace : List Step

/-- State-passing computations with string-valued exceptions; the state is
kept even when an exception escapes, so that logs and traces of a failed
pipeline run remain observable. -/
def M (α : Type) : Type := World → Except String α × World

def M.pure {α : Type} (a : α) : M α := fun w => (Except.ok a, w)

def M.bind {α β : Type} (x : M α) (f : α → M β) : M β := fun w =>
  match x w with
  | (Except.ok a, w2) => f a w2
  | (Except.error e, w2) => (Except.error e, w2)

def M.throw {α : Type} (e : String) : M α := fun w => (Except.error e, w)

/-- Mirrors a `try ... catch` block around `x` with handler `h`. -/
def M.tryCatch {α : Type} (x : M α) (h : String → M α) : M α := fun w =>
  match x w with
  | (Except.ok a, w2) => (Except.ok a, w2)
  | (Except.error e, w2) => h e w2

/-- Overwriting update of the association-list file system. -/
def setFile (fs : List (String × String)) (path content : String) :
    List (String × String) :=
  (path, content) :: fs.filter (fun e => !(e.1 == path))

/-- Lookup in the association-list file system. -/
def getFile (fs : List (String × String)) (path : String) : Option String :=
  (fs.find? (fun e => e.1 == path)).map Prod.snd

/-- `SystemUtils.checkCommand` (`src/utils/system.ts`): runs
`which <command>` and reports whether it succeeded; `which` succeeds exactly
when its whole argument is a PATH-resolvable command name. Never throws. -/
def SystemUtils.checkCommand (command : String) : M Bool := fun w =>
  (Except.ok (w.commands.contains command), w)

/-- `SystemUtils.executeCommand` (`src/utils/system.ts`): runs an external
process via `execa`; throws when the external command fails, carrying the
command's diagnostic. The optional working directory does not influence the
success oracle. -/
def SystemUtils.executeCommand (command : String) (args : List String)
    (_cwd : Option String := none) : M Unit := fun w =>
  if w.execOk command args then (Except.ok (), w)
  else (Except.error ("Command failed: " ++ command), w)

/-- `SystemUtils.installPackage` (`src/utils/system.ts`): `npm install -g`. -/
def SystemUtils.installPackage (packageName : String) : M Unit :=
  SystemUtils.executeCommand "npm" ["install", "-g", packageName]

/-- `SystemUtils.writeFile` (`src/utils/system.ts`): creates parents and
writes (overwrites) the file. Never throws. -/
def SystemUtils.writeFile (filePath content : String) : M Unit := fun w =>
  (Except.ok (), { w with files := setFile w.files filePath content })

/-- `SystemUtils.isPortAvailable` (`src/utils/system.ts`): asks `detect-port`
for a free port at `port` and returns whether the answer equals `port`; any
error during probing yields `false`. Never throws. -/
def SystemUtils.isPortAvailable (port : Nat) : M Bool := fun w =>
  match w.probe port with
  | Except.ok n => (Except.ok (n == port), w)
  | Except.error _ => (Except.ok false, w)

/-- `SystemUtils.getOS` (`src/utils/system.ts`). -/
def SystemUtils.getOS : M String := fun w => (Except.ok w.os, w)

/-- `logger.warning`: appends to the warning log. -/
def logWarning (msg : String) : M Unit := fun w =>
  (Except.ok (), { w with warnings := w.warnings ++ [msg] })

/-- `logger.error`: appends to the error log. -/
def logError (msg : String) : M Unit := fun w =>
  (Except.ok (), { w with errors := w.errors ++ [msg] })

/-- `console.log` output: appends lines to the console log. -/
def output (lines : List String) : M Unit := fun w =>
  (Except.ok (), { w with out := w.out ++ lines })

/-- Records that a pipeline step was entered (the `logger.step` banner at
the top of each `Deployer` step method, and the terminal success banner). -/
def markStep (s : Step) : M Unit := fun w =>
  (Except.ok (), { w with trace := w.trace ++ [s] })

/-- Environment mapping of a PM2 app entry (`src/generators/pm2.ts`). -/
structure PM2Env where
  NODE_ENV : String
  PORT : Nat
deriving Repr, DecidableEq

/-- One app entry of the PM2 ecosystem manifest, mirroring the
`PM2AppConfig` interface of `src/generators/pm2.ts`. -/
structure PM2AppConfig where
  name : String
  script : String
  args : String
  cwd : String
  instances : Nat
  autorestart : Bool
  watch : Bool
  max_memory_restart : String
  env : PM2Env
deriving Repr, DecidableEq

/-- The client app entry pushed by `PM2Generator.generateEcosystemConfig`
(`src/generators/pm2.ts`) when `project.hasClient`. -/
def clientApp (config : DeployConfig) (project : NeexProject) :
    PM2AppConfig :=
  { name := config.projectName ++ "-client"
    script := config.packageManager
    args := "run start:client"
    cwd := project.rootPath
    instances := 1
    autorestart := true
    watch := false
    max_memory_restart := "1G"
    env := { NODE_ENV := config.environment, PORT := config.clientPort } }

/-- The server app entry pushed by `generateEcosystemConfig` when
`project.hasServer`. -/
def serverApp (config : DeployConfig) (project : NeexProject) :
    PM2AppConfig :=
  { name := config.projectName ++ "-server"
    script := config.packageManager
    args := "run start:server"
    cwd := project.rootPath
    instances := 1
    autorestart := true
    watch := false
    max_memory_restart := "1G"
    env := { NODE_ENV := config.environment, PORT := config.serverPort } }

/-- The `apps` array built by `PM2Generator.generateEcosystemConfig`:
the client entry is pushed exactly when `project.hasClient`, then the
server entry exactly when `project.hasServer`. -/
def pm2Apps (config : DeployConfig) (project : NeexProject) :
    List PM2AppConfig :=
  (if project.hasClient then [clientApp config project] else []) ++
  (if project.hasServer then [serverApp config project] else [])

/-- Rendering of one app entry in the style of `JSON.stringify(apps, null, 2)`
used by `PM2Generator.generateEcosystemConfig`. JSON string escaping is
omitted: under the §3 input invariant (project names over `[A-Za-z0-9-_]`,
plain paths and package-manager names) no character requiring an escape
occurs, so the rendering agrees with `JSON.stringify` on valid inputs. -/
def renderApp (a : PM2AppConfig) : String :=
  "    \x7b\n      \"name\": \"" ++ a.name ++
  "\",\n      \"script\": \"" ++ a.script ++
  "\",\n      \"args\": \"" ++ a.args ++
  "\",\n      \"cwd\": \"" ++ a.cwd ++
  "\",\n      \"instances\": " ++ toString a.instances ++
  ",\n      \"autorestart\": " ++ (if a.autorestart then "true" else "false") ++
  ",\n      \"watch\": " ++ (if a.watch then "true" else "false") ++
  ",\n      \"max_memory_restart\": \"" ++ a.max_memory_restart ++
  "\",\n      \"env\": \x7b\n        \"NODE_ENV\": \"" ++ a.env.NODE_ENV ++
  "\",\n        \"PORT\": " ++ toString a.env.PORT ++
  "\n      \x7d\n    \x7d"

/-- `JSON.stringify(apps, null, 2)` over the whole apps array. -/
def renderApps (apps : List PM2AppConfig) : String :=
  match apps with
  | [] => "[]"
  | a :: rest =>
    "[\n" ++ renderApp a ++
      (rest.map (fun b => ",\n" ++ renderApp b)).foldl (· ++ ·) "" ++ "\n  ]"

/-- `PM2Generator.generateEcosystemConfig` (`src/generators/pm2.ts`): the
`module.exports` wrapper around the rendered apps array. A pure function of
its two inputs. -/
def generateEcosystemConfig (config : DeployConfig) (project : NeexProject) :
    String :=
  "module.exports = \x7b\n  apps: " ++ renderApps (pm2Apps config project) ++
  "\n\x7d;"

/-- The `clientUpstream` template of `NginxGenerator.generateNginxConfig`
(`src/generators/nginx.ts`): present exactly when `project.hasClient`. -/
def clientUpstream (config : DeployConfig) (project : NeexProject) : String :=
  if project.hasClient then
    "\n    upstream client_backend \x7b\n        server localhost:" ++
    toString config.clientPort ++ ";\n    \x7d"
  else ""

/-- The `serverUpstream` template of `NginxGenerator.generateNginxConfig`:
present exactly when `project.hasServer`. -/
def serverUpstream (config : DeployConfig) (project : NeexProject) : String :=
  if project.hasServer then
    "\n    upstream server_backend \x7b\n        server localhost:" ++
    toString config.serverPort ++ ";\n    \x7d"
  else ""

/-- The fixed text of the client (`location /`) block of
`NginxGenerator.generateNginxConfig`. -/
def clientLocationBlock : String :=
  "\n    # Frontend (Next.js)\n    location / \x7b\n        proxy_pass http://client_backend;\n        proxy_http_version 1.1;\n        proxy_set_header Upgrade $http_upgrade;\n        proxy_set_header Connection \x27upgrade\x27;\n        proxy_set_header Host $host;\n        proxy_set_header X-Real-IP $remote_addr;\n        proxy_set_header X-Forwarded-For $proxy_add_x_forwarded_for;\n        proxy_set_header X-Forwarded-Proto $scheme;\n        proxy_cache_bypass $http_upgrade;\n    \x7d"

/-- The fixed text of the server (`location /api/`) block of
`NginxGenerator.generateNginxConfig`. -/
def serverLocationBlock : String :=
  "\n    # Backend API (Express)\n    location /api/ \x7b\n        proxy_pass http://server_backend/;\n        proxy_http_version 1.1;\n        proxy_set_header Upgrade $http_upgrade;\n        proxy_set_header Connection \x27upgrade\x27;\n        proxy_set_header Host $host;\n        proxy_set_header X-Real-IP $remote_addr;\n        proxy_set_header X-Forwarded-For $proxy_add_x_forwarded_for;\n        proxy_set_header X-Forwarded-Proto $scheme;\n        proxy_cache_bypass $http_upgrade;\n    \x7d"

/-- The `clientLocation` template: present exactly when `project.hasClient`. -/
def clientLocation (project : NeexProject) : String :=
  if project.hasClient then clientLocationBlock else ""

/-- The `serverLocation` template: present exactly when `project.hasServer`. -/
def serverLocation (project : NeexProject) : String :=
  if project.hasServer then serverLocationBlock else ""

/-- `NginxGenerator.generateNginxConfig` (`src/generators/nginx.ts`): the
full virtual-host document. Note the ordering in the source template:
`${serverLocation}${clientLocation}` — the server block is spliced before
the client block. A pure function of its two inputs. -/
def generateNginxConfig (config : DeployConfig) (project : NeexProject) :
    String :=
  clientUpstream config project ++ serverUpstream config project ++
  "\n\nserver \x7b\n    listen 80;\n    server_name " ++ config.domain ++
  " www." ++ config.domain ++
  ";\n    \n    client_max_body_size 100M;\n    \n    # Security headers\n    add_header X-Frame-Options \"SAMEORIGIN\" always;\n    add_header X-XSS-Protection \"1; mode=block\" always;\n    add_header X-Content-Type-Options \"nosniff\" always;\n    add_header Referrer-Policy \"no-referrer-when-downgrade\" always;\n    add_header Content-Security-Policy \"default-src \x27self\x27 http: https: data: blob: \x27unsafe-inline\x27\" always;\n    " ++
  serverLocation project ++ clientLocation project ++
  "\n    \n    # Static files caching\n    location ~* \\.(js|css|png|jpg|jpeg|gif|ico|svg|woff|woff2|ttf|eot)$ \x7b\n        expires 1y;\n        add_header Cache-Control \"public, immutable\";\n        " ++
  (if project.hasClient then "proxy_pass http://client_backend;" else "") ++
  "\n    \x7d\n    \n    # Gzip compression\n    gzip on;\n    gzip_vary on;\n    gzip_min_length 1024;\n    gzip_proxied expired no-cache no-store private must-revalidate auth;\n    gzip_types text/plain text/css text/xml text/javascript application/x-javascript application/javascript application/xml+rss application/json;\n\x7d"

/-- `NginxGenerator.getConfigPath` (`src/generators/nginx.ts`), with the OS
value passed explicitly. -/
def getConfigPath (config : DeployConfig) (os : String) : String :=
  if os == "darwin" then
    "/usr/local/etc/nginx/servers/" ++ config.projectName ++ ".conf"
  else
    "/etc/nginx/sites-available/" ++ config.projectName

/-- `NginxGenerator.generateSetupInstructions` (`src/generators/nginx.ts`):
the advisory `nginx-setup.md` text, with the OS value passed explicitly. -/
def generateSetupInstructions (config : DeployConfig) (os : String) : String :=
  "# Nginx Setup Instructions\n\n## 1. Install Nginx (if not already installed)\n\n### Ubuntu/Debian:\n```bash\nsudo apt update\nsudo apt install nginx\n```\n\n### CentOS/RHEL:\n```bash\nsudo yum install nginx\n```\n\n### macOS:\n```bash\nbrew install nginx\n```\n\n## 2. Copy configuration\n\n### Linux:\n```bash\nsudo cp " ++
  getConfigPath config os ++ " /etc/nginx/sites-available/" ++
  config.projectName ++ "\nsudo ln -s /etc/nginx/sites-available/" ++
  config.projectName ++
  " /etc/nginx/sites-enabled/\n```\n\n### macOS:\nConfiguration is already in the correct location.\n\n## 3. Test and restart Nginx\n\n```bash\nsudo nginx -t\nsudo systemctl restart nginx  # Linux\n# or\nsudo brew services restart nginx  # macOS\n```\n\n## 4. Setup SSL (Optional but recommended)\n\n```bash\nsudo apt install certbot python3-certbot-nginx  # Ubuntu/Debian\nsudo certbot --nginx -d " ++
  config.domain ++
  "\n```\n\n## 5. Configure firewall\n\n```bash\nsudo ufw allow \x27Nginx Full\x27  # Ubuntu/Debian\n```\n\nYour site will be available at: http://" ++
  config.domain ++ "\n"

/-- The `.env` template written by `Deployer.generateEnvironment`
(`src/deployer.ts`). -/
def envContent (config : DeployConfig) : String :=
  "NODE_ENV=" ++ config.environment ++
  "\nDATABASE_URL=\"your-database-connection-string\"\nPORT_CLIENT=" ++
  toString config.clientPort ++ "\nPORT_SERVER=" ++
  toString config.serverPort ++
  "\n# Add your other environment variables here\n"

/-- The `status.sh` script written by `Deployer.createManagementScripts`
(`src/deployer.ts`). -/
def statusScript (config : DeployConfig) : String :=
  "#!/bin/bash\necho \"=== PM2 Status ===\"\npm2 status\n\necho -e \"\\n=== PM2 Logs (last 20 lines) ===\"\npm2 logs --lines 20\n\necho -e \"\\n=== Port Status ===\"\nnetstat -tulpn | grep -E \":(" ++
  toString config.clientPort ++ "|" ++ toString config.serverPort ++
  "|80|443)\" || true\n\necho -e \"\\n=== System Resources ===\"\ndf -h\nfree -h 2>/dev/null || top -l 1 | grep -E \"^(Processes|PhysMem)\"\n"

/-- The `restart.sh` script written by `Deployer.createManagementScripts`. -/
def restartScript : String :=
  "#!/bin/bash\necho \"Restarting services...\"\npm2 restart all\necho \"Services restarted!\"\n"

/-- The 60-character separator bar `'='.repeat(60)` of
`Deployer.printPostDeploymentInfo`. -/
def eqBar : String := String.mk (List.replicate 60 '=')

/-- The frontend URL line of the final report. -/
def frontendLine (config : DeployConfig) : String :=
  "   Frontend: http://localhost:" ++ toString config.clientPort

/-- The backend URL line of the final report. -/
def backendLine (config : DeployConfig) : String :=
  "   Backend:  http://localhost:" ++ toString config.serverPort

/-- The public URL line of the final report. -/
def publicLine (config : DeployConfig) : String :=
  "   Public:   http://" ++ config.domain

/-- `Deployer.printPostDeploymentInfo` (`src/deployer.ts`): the list of
`console.log` lines of the final report, in emission order. The frontend
and backend lines appear under `project.hasClient` / `project.hasServer`,
and the public line under `config.domain !== 'localhost'`. -/
def postInfoLines (config : DeployConfig) (project : NeexProject) :
    List String :=
  ["\n" ++ eqBar,
   "🎉 DEPLOYMENT COMPLETED SUCCESSFULLY!",
   eqBar,
   "\n📋 Your application is now running:"] ++
  (if project.hasClient then [frontendLine config] else []) ++
  (if project.hasServer then [backendLine config] else []) ++
  (if config.domain ≠ "localhost" then [publicLine config] else []) ++
  ["\n🔧 Management commands:",
   "   Check status: ./status.sh",
   "   Restart:      ./restart.sh",
   "   PM2 logs:     pm2 logs",
   "   PM2 monitor:  pm2 monit",
   "\n📝 Next steps:",
   "   1. Update .env file with your actual values"] ++
  (if config.nginxConfig then
    ["   2. Follow nginx-setup.md for Nginx configuration",
     "   3. Setup SSL certificate for production"]
   else []) ++
  ["   4. Configure your firewall to allow HTTP/HTTPS traffic",
   "\n" ++ eqBar]

/-- `PM2Generator.install` (`src/generators/pm2.ts`): installs pm2 globally
when the `pm2` binary is not resolvable. -/
def PM2Generator.install : M Unit :=
  M.bind (SystemUtils.checkCommand "pm2") fun hasPM2 =>
  if hasPM2 then M.pure () else SystemUtils.installPackage "pm2"

/-- `PM2Generator.generate` (`src/generators/pm2.ts`): writes the generated
ecosystem manifest to `<root>/ecosystem.config.js`. -/
def PM2Generator.generate (config : DeployConfig) (project : NeexProject) :
    M Unit :=
  SystemUtils.writeFile (project.rootPath ++ "/ecosystem.config.js")
    (generateEcosystemConfig config project)

/-- The warning `PM2Generator.start` logs when `pm2 startup` fails. -/
def autoStartWarnMsg : String :=
  "Could not configure PM2 auto-startup. You may need to run this manually with sudo."

/-- `PM2Generator.start` (`src/generators/pm2.ts`): best-effort
`pm2 delete all` (errors swallowed), then `pm2 start ecosystem.config.js`
and `pm2 save` (fatal on error), then — only under `config.autoStart` —
`pm2 startup`, whose failure is downgraded to a warning. The surrounding
`try`/`catch` logs a start failure and rethrows it. -/
def PM2Generator.start (config : DeployConfig) (project : NeexProject) :
    M Unit :=
  M.tryCatch
    (M.bind
      (M.tryCatch
        (SystemUtils.executeCommand "pm2" ["delete", "all"]
          (some project.rootPath))
        (fun _ => M.pure ())) fun _ =>
     M.bind
      (SystemUtils.executeCommand "pm2" ["start", "ecosystem.config.js"]
        (some project.rootPath)) fun _ =>
     M.bind (SystemUtils.executeCommand "pm2" ["save"]) fun _ =>
     if config.autoStart then
       M.tryCatch (SystemUtils.executeCommand "pm2" ["startup"])
         (fun _ => logWarning autoStartWarnMsg)
     else M.pure ())
    (fun e =>
      M.bind (logError ("Failed to start PM2 applications: " ++ e)) fun _ =>
      M.throw e)

/-- The warning `NginxGenerator.install` logs before aborting when the
`nginx` binary is missing. -/
def nginxMissingWarnMsg : String :=
  "Nginx is not installed. Please install it manually:"

/-- The error `NginxGenerator.install` throws when `nginx` is missing. -/
def nginxInstallErrMsg : String := "Nginx installation required"

/-- `NginxGenerator.install` (`src/generators/nginx.ts`): fatal-by-design
when the `nginx` binary is not resolvable — it logs a warning plus manual
install instructions and throws; it never attempts an automatic install. -/
def NginxGenerator.install : M Unit :=
  M.bind (SystemUtils.checkCommand "nginx") fun hasNginx =>
  if hasNginx then M.pure ()
  else
    M.bind (logWarning nginxMissingWarnMsg) fun _ =>
    M.throw nginxInstallErrMsg

/-- `NginxGenerator.generate` (`src/generators/nginx.ts`): writes the
routing document to the OS-dependent path and the advisory setup
instructions to `<root>/nginx-setup.md`. -/
def NginxGenerator.generate (config : DeployConfig) (project : NeexProject) :
    M Unit :=
  M.bind SystemUtils.getOS fun os =>
  M.bind
    (SystemUtils.writeFile (getConfigPath config os)
      (generateNginxConfig config project)) fun _ =>
  SystemUtils.writeFile (project.rootPath ++ "/nginx-setup.md")
    (generateSetupInstructions config os)

/-- `Deployer.checkPrerequisites` (`src/deployer.ts`). -/
def checkPrerequisites (project : NeexProject) : M Unit :=
  M.bind (markStep Step.checkPrerequisites) fun _ =>
  M.bind (SystemUtils.checkCommand "node") fun hasNode =>
  if hasNode then
    M.bind (SystemUtils.checkCommand project.packageManager) fun hasPM =>
    if hasPM then M.pure ()
    else M.throw (project.packageManager ++ " is not installed")
  else M.throw "Node.js is not installed"

/-- `Deployer.buildProject` (`src/deployer.ts`). -/
def buildProject (project : NeexProject) : M Unit :=
  M.bind (markStep Step.build) fun _ =>
  M.bind
    (SystemUtils.executeCommand project.packageManager ["install"]
      (some project.rootPath)) fun _ =>
  SystemUtils.executeCommand project.packageManager ["run", "build"]
    (some project.rootPath)

/-- The advisory warning logged right after a fresh `.env` is written. -/
def envUpdateWarnMsg : String :=
  "Please update .env with your actual values"

/-- `Deployer.generateEnvironment` (`src/deployer.ts`). Note the source
probes for an existing `.env` with
`SystemUtils.checkCommand("test -f " + envPath)`, i.e. it runs
`which "test -f <path>"`. -/
def generateEnvironment (config : DeployConfig) (project : NeexProject) :
    M Unit :=
  M.bind (markStep Step.materializeEnv) fun _ =>
  M.bind
    (SystemUtils.checkCommand ("test -f " ++ (project.rootPath ++ "/.env")))
    fun envExists =>
  if envExists then M.pure ()
  else
    M.bind
      (SystemUtils.writeFile (project.rootPath ++ "/.env")
        (envContent config)) fun _ =>
    logWarning envUpdateWarnMsg

/-- `Deployer.setupPM2` (`src/deployer.ts`). -/
def setupPM2 (config : DeployConfig) (project : NeexProject) : M Unit :=
  M.bind (markStep Step.setupSupervisor) fun _ =>
  M.bind PM2Generator.install fun _ =>
  M.bind (PM2Generator.generate config project) fun _ =>
  PM2Generator.start config project

/-- The prefix of the warning `Deployer.setupNginx` logs when nginx setup
fails (the caught error's text is appended). -/
def nginxManualWarnMsg (e : String) : String :=
  "Nginx setup requires manual intervention: " ++ e

/-- `Deployer.setupNginx` (`src/deployer.ts`): install plus generate inside
a `try`/`catch` that downgrades any error to a warning. -/
def setupNginx (config : DeployConfig) (project : NeexProject) : M Unit :=
  M.bind (markStep Step.setupProxy) fun _ =>
  M.tryCatch
    (M.bind NginxGenerator.install fun _ =>
     NginxGenerator.generate config project)
    (fun e => logWarning (nginxManualWarnMsg e))

/-- `Deployer.createManagementScripts` (`src/deployer.ts`): writes
`status.sh` and `restart.sh` (no existence check) and marks them
executable. -/
def createManagementScripts (config : DeployConfig) (project : NeexProject) :
    M Unit :=
  M.bind (markStep Step.manageScripts) fun _ =>
  M.bind
    (SystemUtils.writeFile (project.rootPath ++ "/status.sh")
      (statusScript config)) fun _ =>
  M.bind
    (SystemUtils.executeCommand "chmod" ["+x", "status.sh"]
      (some project.rootPath)) fun _ =>
  M.bind
    (SystemUtils.writeFile (project.rootPath ++ "/restart.sh")
      restartScript) fun _ =>
  SystemUtils.executeCommand "chmod" ["+x", "restart.sh"]
    (some project.rootPath)

/-- The advisory warning of the client-port check. -/
def clientPortWarnMsg (config : DeployConfig) : String :=
  "Client port " ++ toString config.clientPort ++
  " seems to be available (service might not be running)"

/-- The advisory warning of the server-port check. -/
def serverPortWarnMsg (config : DeployConfig) : String :=
  "Server port " ++ toString config.serverPort ++
  " seems to be available (service might not be running)"

/-- `Deployer.performFinalChecks` (`src/deployer.ts`): after the fixed
settle delay (time is not modelled), probes each enabled subsystem's port;
a port that still looks free yields an advisory warning, a bound port a
success message. -/
def performFinalChecks (config : DeployConfig) (project : NeexProject) :
    M Unit :=
  M.bind (markStep Step.verify) fun _ =>
  M.bind
    (if project.hasClient then
      M.bind (SystemUtils.isPortAvailable config.clientPort)
        fun clientAvailable =>
      if clientAvailable then logWarning (clientPortWarnMsg config)
      else M.pure ()
     else M.pure ()) fun _ =>
  if project.hasServer then
    M.bind (SystemUtils.isPortAvailable config.serverPort)
      fun serverAvailable =>
    if serverAvailable then logWarning (serverPortWarnMsg config)
    else M.pure ()
  else M.pure ()

/-- The step sequence of `Deployer.deploy` (`src/deployer.ts`), without the
outer `try`/`catch`. -/
def deployBody (config : DeployConfig) (project : NeexProject) : M Unit :=
  M.bind (checkPrerequisites project) fun _ =>
  M.bind (buildProject project) fun _ =>
  M.bind (generateEnvironment config project) fun _ =>
  M.bind (setupPM2 config project) fun _ =>
  M.bind
    (if config.nginxConfig then setupNginx config project else M.pure ())
    fun _ =>
  M.bind (createManagementScripts config project) fun _ =>
  M.bind (performFinalChecks config project) fun _ =>
  M.bind (markStep Step.done) fun _ =>
  output (postInfoLines config project)

/-- `Deployer.deploy` (`src/deployer.ts`): the full pipeline; the outer
`catch` logs the failure and rethrows the same error. -/
def deploy (config : DeployConfig) (project : NeexProject) : M Unit :=
  M.tryCatch (deployBody config project)
    (fun e =>
      M.bind (logError ("Deployment failed: " ++ e)) fun _ => M.throw e)

/-- The full fixed step order of one pipeline run, as a function of the
proxy flag; `Step.setupProxy` appears exactly when `config.nginxConfig`. -/
def fullSteps (config : DeployConfig) : List Step :=
  [Step.checkPrerequisites, Step.build, Step.materializeEnv,
   Step.setupSupervisor] ++
  (if config.nginxConfig then [Step.setupProxy] else []) ++
  [Step.manageScripts, Step.verify, Step.done]

/-- A computation that leaves the step trace unchanged. -/
def preservesTrace {α : Type} (x : M α) : Prop :=
  ∀ w, ((x w).2).trace = w.trace

/-- A computation that never throws. -/
def neverFails {α : Type} (x : M α) : Prop :=
  ∀ w, ∃ a, (x w).1 = Except.ok a

lemma pt_pure {α : Type} (a : α) : preservesTrace (M.pure a) :=
  fun _ => rfl

lemma pt_throw {α : Type} (e : String) :
    preservesTrace (M.throw (α := α) e) :=
  fun _ => rfl

lemma pt_bind {α β : Type} {x : M α} {f : α → M β}
    (hx : preservesTrace x) (hf : ∀ a, preservesTrace (f a)) :
    preservesTrace (M.bind x f) := by
  intro w
  have hxw := hx w
  unfold M.bind
  cases h : x w with
  | mk r w2 =>
    rw [h] at hxw
    cases r with
    | ok a =>
      simpa using (hf a w2).trans hxw
    | error e =>
      simpa using hxw

lemma pt_tryCatch {α : Type} {x : M α} {h : String → M α}
    (hx : preservesTrace x) (hh : ∀ e, preservesTrace (h e)) :
    preservesTrace (M.tryCatch x h) := by
  intro w
  have hxw := hx w
  unfold M.tryCatch
  cases hw : x w with
  | mk r w2 =>
    rw [hw] at hxw
    cases r with
    | ok a => simpa using hxw
    | error e => simpa using (hh e w2).trans hxw

lemma pt_ite {α : Type} {c : Prop} [Decidable c] {x y : M α}
    (hx : preservesTrace x) (hy : preservesTrace y) :
    preservesTrace (if c then x else y) := by
  split
  · exact hx
  · exact hy

lemma pt_checkCommand (s : String) :
    preservesTrace (SystemUtils.checkCommand s) :=
  fun _ => rfl

lemma pt_executeCommand (c : String) (a : List String) (o : Option String) :
    preservesTrace (SystemUtils.executeCommand c a o) := by
  intro w
  unfold SystemUtils.executeCommand
  split <;> rfl

lemma pt_installPackage (s : String) :
    preservesTrace (SystemUtils.installPackage s) :=
  pt_executeCommand _ _ _

lemma pt_writeFile (p c : String) :
    preservesTrace (SystemUtils.writeFile p c) :=
  fun _ => rfl

lemma pt_isPortAvailable (p : Nat) :
    preservesTrace (SystemUtils.isPortAvailable p) := by
  intro w
  unfold SystemUtils.isPortAvailable
  cases h : w.probe p <;> simp [h]

lemma pt_getOS : preservesTrace SystemUtils.getOS :=
  fun _ => rfl

lemma pt_logWarning (s : String) : preservesTrace (logWarning s) :=
  fun _ => rfl

lemma pt_logError (s : String) : preservesTrace (logError s) :=
  fun _ => rfl

lemma pt_output (l : List String) : preservesTrace (output l) :=
  fun _ => rfl

lemma nf_pure {α : Type} (a : α) : neverFails (M.pure a) :=
  fun _ => ⟨a, rfl⟩

lemma nf_bind {α β : Type} {x : M α} {f : α → M β}
    (hx : neverFails x) (hf : ∀ a, neverFails (f a)) :
    neverFails (M.bind x f) := by
  intro w
  obtain ⟨a, ha⟩ := hx w
  unfold M.bind
  cases h : x w with
  | mk r w2 =>
    rw [h] at ha
    cases r with
    | ok b => simpa using hf b w2
    | error e => simp at ha

lemma nf_tryCatch {α : Type} {x : M α} {h : String → M α}
    (hh : ∀ e, neverFails (h e)) : neverFails (M.tryCatch x h) := by
  intro w
  unfold M.tryCatch
  cases hw : x w with
  | mk r w2 =>
    cases r with
    | ok a => exact ⟨a, rfl⟩
    | error e => simpa using hh e w2

lemma nf_ite {α : Type} {c : Prop} [Decidable c] {x y : M α}
    (hx : neverFails x) (hy : neverFails y) :
    neverFails (if c then x else y) := by
  split
  · exact hx
  · exact hy

lemma nf_checkCommand (s : String) :
    neverFails (SystemUtils.checkCommand s) :=
  fun w => ⟨w.commands.contains s, rfl⟩

lemma nf_writeFile (p c : String) : neverFails (SystemUtils.writeFile p c) :=
  fun _ => ⟨(), rfl⟩

lemma nf_isPortAvailable (p : Nat) :
    neverFails (SystemUtils.isPortAvailable p) := by
  intro w
  unfold SystemUtils.isPortAvailable
  cases h : w.probe p <;> simp [h]

lemma nf_logWarning (s : String) : neverFails (logWarning s) :=
  fun _ => ⟨(), rfl⟩

lemma nf_markStep (s : Step) : neverFails (markStep s) :=
  fun _ => ⟨(), rfl⟩

/-- Trace of a step body of the shape `markStep s; rest` where `rest`
leaves the trace alone: the step contributes exactly its own marker. -/
lemma markStep_bind_trace {α : Type} (s : Step) (f : Unit → M α)
    (hf : preservesTrace (f ())) :
    ∀ w, (((M.bind (markStep s) f) w).2).trace = w.trace ++ [s] := by
  intro w
  show ((f () { w with trace := w.trace ++ [s] }).2).trace = w.trace ++ [s]
  rw [hf]

lemma pt_PM2install : preservesTrace PM2Generator.install :=
  pt_bind (pt_checkCommand _)
    (fun _ => pt_ite (pt_pure _) (pt_installPackage _))

lemma pt_PM2generate (c : DeployConfig) (p : NeexProject) :
    preservesTrace (PM2Generator.generate c p) :=
  pt_writeFile _ _

lemma pt_PM2start (c : DeployConfig) (p : NeexProject) :
    preservesTrace (PM2Generator.start c p) :=
  pt_tryCatch
    (pt_bind (pt_tryCatch (pt_executeCommand _ _ _) (fun _ => pt_pure _))
      (fun _ => pt_bind (pt_executeCommand _ _ _)
        (fun _ => pt_bind (pt_executeCommand _ _ _)
          (fun _ => pt_ite
            (pt_tryCatch (pt_executeCommand _ _ _)
              (fun _ => pt_logWarning _))
            (pt_pure _)))))
    (fun _ => pt_bind (pt_logError _) (fun _ => pt_throw _))

lemma pt_NginxInstall : preservesTrace NginxGenerator.install :=
  pt_bind (pt_checkCommand _)
    (fun _ => pt_ite (pt_pure _)
      (pt_bind (pt_logWarning _) (fun _ => pt_throw _)))

lemma pt_NginxGenerate (c : DeployConfig) (p : NeexProject) :
    preservesTrace (NginxGenerator.generate c p) :=
  pt_bind pt_getOS
    (fun _ => pt_bind (pt_writeFile _ _) (fun _ => pt_writeFile _ _))

lemma checkPrerequisites_trace (p : NeexProject) :
    ∀ w, ((checkPrerequisites p w).2).trace =
      w.trace ++ [Step.checkPrerequisites] :=
  markStep_bind_trace _ _
    (pt_bind (pt_checkCommand _)
      (fun _ => pt_ite
        (pt_bind (pt_checkCommand _)
          (fun _ => pt_ite (pt_pure _) (pt_throw _)))
        (pt_throw _)))

lemma buildProject_trace (p : NeexProject) :
    ∀ w, ((buildProject p w).2).trace = w.trace ++ [Step.build] :=
  markStep_bind_trace _ _
    (pt_bind (pt_executeCommand _ _ _) (fun _ => pt_executeCommand _ _ _))

lemma generateEnvironment_trace (c : DeployConfig) (p : NeexProject) :
    ∀ w, ((generateEnvironment c p w).2).trace =
      w.trace ++ [Step.materializeEnv] :=
  markStep_bind_trace _ _
    (pt_bind (pt_checkCommand _)
      (fun _ => pt_ite (pt_pure _)
        (pt_bind (pt_writeFile _ _) (fun _ => pt_logWarning _))))

lemma setupPM2_trace (c : DeployConfig) (p : NeexProject) :
    ∀ w, ((setupPM2 c p w).2).trace = w.trace ++ [Step.setupSupervisor] :=
  markStep_bind_trace _ _
    (pt_bind pt_PM2install
      (fun _ => pt_bind (pt_PM2generate c p) (fun _ => pt_PM2start c p)))

lemma setupNginx_trace (c : DeployConfig) (p : NeexProject) :
    ∀ w, ((setupNginx c p w).2).trace = w.trace ++ [Step.setupProxy] :=
  markStep_bind_trace _ _
    (pt_tryCatch
      (pt_bind pt_NginxInstall (fun _ => pt_NginxGenerate c p))
      (fun _ => pt_logWarning _))

lemma createManagementScripts_trace (c : DeployConfig) (p : NeexProject) :
    ∀ w, ((createManagementScripts c p w).2).trace =
      w.trace ++ [Step.manageScripts] :=
  markStep_bind_trace _ _
    (pt_bind (pt_writeFile _ _)
      (fun _ => pt_bind (pt_executeCommand _ _ _)
        (fun _ => pt_bind (pt_writeFile _ _)
          (fun _ => pt_executeCommand _ _ _))))

lemma performFinalChecks_trace (c : DeployConfig) (p : NeexProject) :
    ∀ w, ((performFinalChecks c p w).2).trace = w.trace ++ [Step.verify] :=
  markStep_bind_trace _ _
    (pt_bind
      (pt_ite
        (pt_bind (pt_isPortAvailable _)
          (fun _ => pt_ite (pt_logWarning _) (pt_pure _)))
        (pt_pure _))
      (fun _ => pt_ite
        (pt_bind (pt_isPortAvailable _)
          (fun _ => pt_ite (pt_logWarning _) (pt_pure _)))
        (pt_pure _)))

lemma generateEnvironment_nf (c : DeployConfig) (p : NeexProject) :
    neverFails (generateEnvironment c p) :=
  nf_bind (nf_markStep _)
    (fun _ => nf_bind (nf_checkCommand _)
      (fun _ => nf_ite (nf_pure _)
        (nf_bind (nf_writeFile _ _) (fun _ => nf_logWarning _))))

lemma setupNginx_nf (c : DeployConfig) (p : NeexProject) :
    neverFails (setupNginx c p) :=
  nf_bind (nf_markStep _)
    (fun _ => nf_tryCatch (fun _ => nf_logWarning _))

lemma performFinalChecks_nf (c : DeployConfig) (p : NeexProject) :
    neverFails (performFinalChecks c p) :=
  nf_bind (nf_markStep _)
    (fun _ => nf_bind
      (nf_ite
        (nf_bind (nf_isPortAvailable _)
          (fun _ => nf_ite (nf_logWarning _) (nf_pure _)))
        (nf_pure _))
      (fun _ => nf_ite
        (nf_bind (nf_isPortAvailable _)
          (fun _ => nf_ite (nf_logWarning _) (nf_pure _)))
        (nf_pure _)))


/-- Rewrite rule: a bind whose first component is known to succeed. -/
lemma bind_ok {α β : Type} {x : M α} {w w' : World} {a : α}
    (h : x w = (Except.ok a, w')) (f : α → M β) :
    M.bind x f w = f a w' := by
  unfold M.bind; rw [h]

/-- Rewrite rule: a bind whose first component is known to fail. -/
lemma bind_err {α β : Type} {x : M α} {w w' : World} {e : String}
    (h : x w = (Except.error e, w')) (f : α → M β) :
    M.bind x f w = (Except.error e, w') := by
  unfold M.bind; rw [h]

/-- Rewrite rule: binding a pure value. -/
lemma bindPure_run {α β : Type} (a : α) (f : α → M β) (w : World) :
    M.bind (M.pure a) f w = f a w := rfl

/-- Rewrite rule: a caught computation that succeeds. -/
lemma tryCatch_ok {α : Type} {x : M α} {w w' : World} {a : α}
    (h : x w = (Except.ok a, w')) (hh : String → M α) :
    M.tryCatch x hh w = (Except.ok a, w') := by
  unfold M.tryCatch; rw [h]

/-- Rewrite rule: a caught computation that fails runs the handler. -/
lemma tryCatch_err {α : Type} {x : M α} {w w' : World} {e : String}
    (h : x w = (Except.error e, w')) (hh : String → M α) :
    M.tryCatch x hh w = hh e w' := by
  unfold M.tryCatch; rw [h]

/-- `Deployer.setupNginx` always succeeds, and appends warnings exactly
when the nginx binary is missing: the install warning and then the
downgraded setup warning carrying the install error's text. -/
lemma setupNginx_warnings (c : DeployConfig) (p : NeexProject) (w : World) :
    (setupNginx c p w).1 = Except.ok () ∧
    ((setupNginx c p w).2).warnings = w.warnings ++
      (if w.commands.contains "nginx" then []
       else [nginxMissingWarnMsg, nginxManualWarnMsg nginxInstallErrMsg]) := by
  simp only [setupNginx, markStep, M.bind, M.tryCatch, M.pure, M.throw,
    NginxGenerator.install, NginxGenerator.generate,
    SystemUtils.checkCommand, SystemUtils.getOS, SystemUtils.writeFile,
    logWarning]
  cases hn : w.commands.contains "nginx" <;>
    simp [hn, M.bind, M.throw, M.pure, logWarning]

/-- Characterization of one pipeline run (without the outer catch): on
success the trace grows by exactly the full ordered step list; on failure
it grows by a proper, nonempty prefix of it — the failing step is entered,
no later step is, and `Step.done` is never reached. -/
lemma deployBody_spec (c : DeployConfig) (p : NeexProject) (w : World) :
    ((deployBody c p w).1 = Except.ok () →
      ((deployBody c p w).2).trace = w.trace ++ fullSteps c) ∧
    (∀ e, (deployBody c p w).1 = Except.error e →
      ∃ n, 0 < n ∧ n < (fullSteps c).length ∧
        ((deployBody c p w).2).trace = w.trace ++ (fullSteps c).take n) := by
  simp only [deployBody]
  rcases h1 : checkPrerequisites p w with ⟨r1, w1⟩
  have t1 : w1.trace = w.trace ++ [Step.checkPrerequisites] := by
    have h := checkPrerequisites_trace p w; rw [h1] at h; exact h
  cases r1 with
  | error e1 =>
    simp only [bind_err h1]
    refine ⟨by intro h; simp at h, ?_⟩
    intro e he
    refine ⟨1, Nat.one_pos, ?_, ?_⟩ <;>
      cases hc : c.nginxConfig <;> simp [fullSteps, hc, t1]
  | ok u1 =>
  cases u1
  simp only [bind_ok h1]
  rcases h2 : buildProject p w1 with ⟨r2, w2⟩
  have t2 : w2.trace = w1.trace ++ [Step.build] := by
    have h := buildProject_trace p w1; rw [h2] at h; exact h
  cases r2 with
  | error e2 =>
    simp only [bind_err h2]
    refine ⟨by intro h; simp at h, ?_⟩
    intro e he
    refine ⟨2, by norm_num, ?_, ?_⟩ <;>
      cases hc : c.nginxConfig <;> simp [fullSteps, hc, t2, t1]
  | ok u2 =>
  cases u2
  simp only [bind_ok h2]
  rcases h3 : generateEnvironment c p w2 with ⟨r3, w3⟩
  have t3 : w3.trace = w2.trace ++ [Step.materializeEnv] := by
    have h := generateEnvironment_trace c p w2; rw [h3] at h; exact h
  cases r3 with
  | error e3 =>
    exfalso
    obtain ⟨a, ha⟩ := generateEnvironment_nf c p w2
    rw [h3] at ha; simp at ha
  | ok u3 =>
  cases u3
  simp only [bind_ok h3]
  rcases h4 : setupPM2 c p w3 with ⟨r4, w4⟩
  have t4 : w4.trace = w3.trace ++ [Step.setupSupervisor] := by
    have h := setupPM2_trace c p w3; rw [h4] at h; exact h
  cases r4 with
  | error e4 =>
    simp only [bind_err h4]
    refine ⟨by intro h; simp at h, ?_⟩
    intro e he
    refine ⟨4, by norm_num, ?_, ?_⟩ <;>
      cases hc : c.nginxConfig <;> simp [fullSteps, hc, t4, t3, t2, t1]
  | ok u4 =>
  cases u4
  simp only [bind_ok h4]
  cases hc : c.nginxConfig
  case false =>
    simp only [hc, Bool.false_eq_true, if_false, bindPure_run]
    rcases h6 : createManagementScripts c p w4 with ⟨r6, w6⟩
    have t6 : w6.trace = w4.trace ++ [Step.manageScripts] := by
      have h := createManagementScripts_trace c p w4; rw [h6] at h; exact h
    cases r6 with
    | error e6 =>
      simp only [bind_err h6]
      refine ⟨by intro h; simp at h, ?_⟩
      intro e he
      refine ⟨5, by norm_num, ?_, ?_⟩ <;>
        simp [fullSteps, hc, t6, t4, t3, t2, t1]
    | ok u6 =>
    cases u6
    simp only [bind_ok h6]
    rcases h7 : performFinalChecks c p w6 with ⟨r7, w7⟩
    have t7 : w7.trace = w6.trace ++ [Step.verify] := by
      have h := performFinalChecks_trace c p w6; rw [h7] at h; exact h
    cases r7 with
    | error e7 =>
      exfalso
      obtain ⟨a, ha⟩ := performFinalChecks_nf c p w6
      rw [h7] at ha; simp at ha
    | ok u7 =>
    cases u7
    simp only [bind_ok h7]
    refine ⟨?_, by intro e he; simp [M.bind, markStep, output] at he⟩
    intro _
    simp [M.bind, markStep, output, fullSteps, hc, t7, t6, t4, t3, t2, t1]
  case true =>
    simp only [hc, if_true]
    rcases h5 : setupNginx c p w4 with ⟨r5, w5⟩
    have t5 : w5.trace = w4.trace ++ [Step.setupProxy] := by
      have h := setupNginx_trace c p w4; rw [h5] at h; exact h
    cases r5 with
    | error e5 =>
      exfalso
      obtain ⟨a, ha⟩ := setupNginx_nf c p w4
      rw [h5] at ha; simp at ha
    | ok u5 =>
    cases u5
    simp only [bind_ok h5]
    rcases h6 : createManagementScripts c p w5 with ⟨r6, w6⟩
    have t6 : w6.trace = w5.trace ++ [Step.manageScripts] := by
      have h := createManagementScripts_trace c p w5; rw [h6] at h; exact h
    cases r6 with
    | error e6 =>
      simp only [bind_err h6]
      refine ⟨by intro h; simp at h, ?_⟩
      intro e he
      refine ⟨6, by norm_num, ?_, ?_⟩ <;>
        simp [fullSteps, hc, t6, t5, t4, t3, t2, t1]
    | ok u6 =>
    cases u6
    simp only [bind_ok h6]
    rcases h7 : performFinalChecks c p w6 with ⟨r7, w7⟩
    have t7 : w7.trace = w6.trace ++ [Step.verify] := by
      have h := performFinalChecks_trace c p w6; rw [h7] at h; exact h
    cases r7 with
    | error e7 =>
      exfalso
      obtain ⟨a, ha⟩ := performFinalChecks_nf c p w6
      rw [h7] at ha; simp at ha
    | ok u7 =>
    cases u7
    simp only [bind_ok h7]
    refine ⟨?_, by intro e he; simp [M.bind, markStep, output] at he⟩
    intro _
    simp [M.bind, markStep, output, fullSteps, hc, t7, t6, t5, t4, t3, t2, t1]

/-- The outer `catch` of `Deployer.deploy` logs and rethrows, so the deploy
result and trace coincide with those of the step sequence. -/
lemma deploy_spec (c : DeployConfig) (p : NeexProject) (w : World) :
    ((deploy c p w).1 = Except.ok () →
      ((deploy c p w).2).trace = w.trace ++ fullSteps c) ∧
    (∀ e, (deploy c p w).1 = Except.error e →
      ∃ n, 0 < n ∧ n < (fullSteps c).length ∧
        ((deploy c p w).2).trace = w.trace ++ (fullSteps c).take n) := by
  obtain ⟨hok, herr⟩ := deployBody_spec c p w
  rcases hb : deployBody c p w with ⟨rb, wb⟩
  rw [hb] at hok herr
  cases rb with
  | ok a =>
    cases a
    have htr : wb.trace = w.trace ++ fullSteps c := hok rfl
    constructor
    · intro _
      simp only [deploy, tryCatch_ok hb]
      exact htr
    · intro e he
      simp only [deploy, tryCatch_ok hb] at he
      simp at he
  | error e =>
    obtain ⟨n, hn1, hn2, hn3⟩ := herr e rfl
    constructor
    · intro h
      simp only [deploy, tryCatch_err hb, M.bind, logError, M.throw] at h
      exact absurd h (by simp)
    · intro e' he'
      refine ⟨n, hn1, hn2, ?_⟩
      simp only [deploy, tryCatch_err hb, M.bind, logError, M.throw]
      exact hn3

/-- A sample deployment configuration (the spec §8 scenario). -/
def cSample : DeployConfig :=
  { projectName := "blog"
    domain := "localhost"
    ssl := false
    email := none
    clientPort := 3000
    serverPort := 8000
    packageManager := "npm"
    environment := "production"
    autoStart := true
    nginxConfig := true }

/-- A sample detected topology with both subsystems enabled. -/
def pSample : NeexProject :=
  { hasClient := true
    hasServer := true
    clientPath := "/app/client"
    serverPath := "/app/server"
    rootPath := "/app"
    packageManager := "npm" }

/-- A sample host where every prerequisite is installed, every external
command succeeds, and the port probe always fails (ports look bound). -/
def wSample : World :=
  { commands := ["node", "npm", "pm2", "nginx", "chmod"]
    files := []
    execOk := fun _ _ => true
    probe := fun _ => Except.error ()
    os := "linux"
    warnings := []
    errors := []
    out := []
    trace := [] }

/-- C1: the pipeline executes its steps in the fixed order
`checkPrerequisites, build, materializeEnv, setupSupervisor, setupProxy`
(the latter only when the proxy flag is set), `manageScripts, verify, done`.
For every config, topology and world, a successful run's trace is exactly
this ordered list; an error from any step halts the run in a failed state
with the trace a proper nonempty prefix of the list (no later step, and
never `done`); and `setupNginx` itself can never raise — an internal proxy
error is caught and recorded as warnings, so the next step always runs. -/
theorem claim_C1_step_order_and_failure_policy
    (c : DeployConfig) (p : NeexProject) (w : World) :
    ((deploy c p w).1 = Except.ok () →
      ((deploy c p w).2).trace = w.trace ++ fullSteps c) ∧
    (∀ e, (deploy c p w).1 = Except.error e →
      ∃ n, 0 < n ∧ n < (fullSteps c).length ∧
        ((deploy c p w).2).trace = w.trace ++ (fullSteps c).take n) ∧
    ((setupNginx c p w).1 = Except.ok () ∧
      ((setupNginx c p w).2).warnings = w.warnings ++
        (if w.commands.contains "nginx" then []
         else [nginxMissingWarnMsg, nginxManualWarnMsg nginxInstallErrMsg])) :=
  ⟨(deploy_spec c p w).1,
   (deploy_spec c p w).2,
   setupNginx_warnings c p w⟩

/-- Witness for C1 at the sample inputs: the run succeeds and its trace is
the full fixed step order. -/
theorem claim_C1_step_order_and_failure_policy_witness :
    (deploy cSample pSample wSample).1 = Except.ok () ∧
    ((deploy cSample pSample wSample).2).trace =
      wSample.trace ++ fullSteps cSample :=
  ⟨by rfl,
   (claim_C1_step_order_and_failure_policy cSample pSample wSample).1
     (by rfl)⟩

/-- Appending different suffixes to the same string yields different
strings. -/
lemma appendRight_ne {s a b : String} (h : a.data ≠ b.data) :
    s ++ a ≠ s ++ b := by
  intro he
  apply h
  have hd := congrArg String.data he
  rw [String.data_append, String.data_append] at hd
  exact List.append_cancel_left hd

/-- C2: for every config and topology, the supervisor manifest has exactly
one entry per enabled subsystem — named `<project>-client` /
`<project>-server`, each carrying that subsystem's port in its environment
mapping — and the routing-document upstream/location blocks are present
exactly for enabled subsystems; a disabled subsystem contributes no entry
(not even an empty placeholder) to either artifact. -/
theorem claim_C2_entries_per_enabled_subsystem
    (c : DeployConfig) (p : NeexProject) :
    ((pm2Apps c p).map PM2AppConfig.name =
      (if p.hasClient then [c.projectName ++ "-client"] else []) ++
      (if p.hasServer then [c.projectName ++ "-server"] else [])) ∧
    (p.hasClient = true → ∃ a, a ∈ pm2Apps c p ∧
      a.name = c.projectName ++ "-client" ∧ a.env.PORT = c.clientPort) ∧
    (p.hasServer = true → ∃ a, a ∈ pm2Apps c p ∧
      a.name = c.projectName ++ "-server" ∧ a.env.PORT = c.serverPort) ∧
    (p.hasClient = false →
      (∀ a ∈ pm2Apps c p, a.name ≠ c.projectName ++ "-client") ∧
      clientUpstream c p = "" ∧ clientLocation p = "") ∧
    (p.hasServer = false →
      (∀ a ∈ pm2Apps c p, a.name ≠ c.projectName ++ "-server") ∧
      serverUpstream c p = "" ∧ serverLocation p = "") ∧
    (p.hasClient = true →
      clientUpstream c p =
        "\n    upstream client_backend \x7b\n        server localhost:" ++
        toString c.clientPort ++ ";\n    \x7d" ∧
      clientLocation p = clientLocationBlock) ∧
    (p.hasServer = true →
      serverUpstream c p =
        "\n    upstream server_backend \x7b\n        server localhost:" ++
        toString c.serverPort ++ ";\n    \x7d" ∧
      serverLocation p = serverLocationBlock) := by
  refine ⟨?_, ?_, ?_, ?_, ?_, ?_, ?_⟩
  · cases hcl : p.hasClient <;> cases hs : p.hasServer <;>
      simp [pm2Apps, clientApp, serverApp, hcl, hs]
  · intro h
    exact ⟨clientApp c p, by simp [pm2Apps, h], rfl, rfl⟩
  · intro h
    exact ⟨serverApp c p, by simp [pm2Apps, h], rfl, rfl⟩
  · intro h
    refine ⟨?_, by simp [clientUpstream, h], by simp [clientLocation, h]⟩
    intro a ha
    cases hs : p.hasServer
    · simp [pm2Apps, h, hs] at ha
    · simp [pm2Apps, h, hs] at ha
      rw [ha]
      show c.projectName ++ "-server" ≠ c.projectName ++ "-client"
      exact appendRight_ne (by decide)
  · intro h
    refine ⟨?_, by simp [serverUpstream, h], by simp [serverLocation, h]⟩
    intro a ha
    cases hcl : p.hasClient
    · simp [pm2Apps, h, hcl] at ha
    · simp [pm2Apps, h, hcl] at ha
      rw [ha]
      show c.projectName ++ "-client" ≠ c.projectName ++ "-server"
      exact appendRight_ne (by decide)
  · intro h
    exact ⟨by simp [clientUpstream, h], by simp [clientLocation, h]⟩
  · intro h
    exact ⟨by simp [serverUpstream, h], by simp [serverLocation, h]⟩

/-- Witness for C2 at the sample inputs (both subsystems enabled): the
manifest names are exactly `blog-client`, `blog-server`. -/
theorem claim_C2_entries_per_enabled_subsystem_witness :
    (pm2Apps cSample pSample).map PM2AppConfig.name =
      ["blog-client", "blog-server"] ∧
    (∃ a, a ∈ pm2Apps cSample pSample ∧
      a.name = cSample.projectName ++ "-client" ∧
      a.env.PORT = cSample.clientPort) ∧
    (∃ a, a ∈ pm2Apps cSample pSample ∧
      a.name = cSample.projectName ++ "-server" ∧
      a.env.PORT = cSample.serverPort) :=
  ⟨by decide,
   (claim_C2_entries_per_enabled_subsystem cSample pSample).2.1 (by decide),
   (claim_C2_entries_per_enabled_subsystem cSample pSample).2.2.1
     (by decide)⟩

/-- The text of the server location block after its `location /api/` rule
opener (used to exhibit where the rule sits inside the document). -/
def serverLocRest : String :=
  "\n        proxy_pass http://server_backend/;\n        proxy_http_version 1.1;\n        proxy_set_header Upgrade $http_upgrade;\n        proxy_set_header Connection \x27upgrade\x27;\n        proxy_set_header Host $host;\n        proxy_set_header X-Real-IP $remote_addr;\n        proxy_set_header X-Forwarded-For $proxy_add_x_forwarded_for;\n        proxy_set_header X-Forwarded-Proto $scheme;\n        proxy_cache_bypass $http_upgrade;\n    \x7d"

/-- The text of the client location block after its `location /` rule
opener. -/
def clientLocRest : String :=
  "\n        proxy_pass http://client_backend;\n        proxy_http_version 1.1;\n        proxy_set_header Upgrade $http_upgrade;\n        proxy_set_header Connection \x27upgrade\x27;\n        proxy_set_header Host $host;\n        proxy_set_header X-Real-IP $remote_addr;\n        proxy_set_header X-Forwarded-For $proxy_add_x_forwarded_for;\n        proxy_set_header X-Forwarded-Proto $scheme;\n        proxy_cache_bypass $http_upgrade;\n    \x7d"

lemma serverLocationBlock_split :
    serverLocationBlock =
      "\n    # Backend API (Express)\n    " ++
      ("location /api/ \x7b" ++ serverLocRest) := rfl

lemma clientLocationBlock_split :
    clientLocationBlock =
      "\n    # Frontend (Next.js)\n    " ++
      ("location / \x7b" ++ clientLocRest) := rfl

/-- C3: whenever both subsystems are enabled, the generated routing
document places the server's `/api/` location rule before the client's
catch-all `/` location rule in the document text. -/
theorem claim_C3_api_rule_before_catchall
    (c : DeployConfig) (p : NeexProject)
    (hcl : p.hasClient = true) (hs : p.hasServer = true) :
    ∃ pre mid post : String,
      generateNginxConfig c p =
        pre ++ "location /api/ \x7b" ++ mid ++ "location / \x7b" ++ post := by
  refine
    ⟨clientUpstream c p ++ serverUpstream c p ++
      "\n\nserver \x7b\n    listen 80;\n    server_name " ++ c.domain ++
      " www." ++ c.domain ++
      ";\n    \n    client_max_body_size 100M;\n    \n    # Security headers\n    add_header X-Frame-Options \"SAMEORIGIN\" always;\n    add_header X-XSS-Protection \"1; mode=block\" always;\n    add_header X-Content-Type-Options \"nosniff\" always;\n    add_header Referrer-Policy \"no-referrer-when-downgrade\" always;\n    add_header Content-Security-Policy \"default-src \x27self\x27 http: https: data: blob: \x27unsafe-inline\x27\" always;\n    " ++
      "\n    # Backend API (Express)\n    ",
     serverLocRest ++ "\n    # Frontend (Next.js)\n    ",
     clientLocRest ++
      "\n    \n    # Static files caching\n    location ~* \\.(js|css|png|jpg|jpeg|gif|ico|svg|woff|woff2|ttf|eot)$ \x7b\n        expires 1y;\n        add_header Cache-Control \"public, immutable\";\n        " ++
      "proxy_pass http://client_backend;" ++
      "\n    \x7d\n    \n    # Gzip compression\n    gzip on;\n    gzip_vary on;\n    gzip_min_length 1024;\n    gzip_proxied expired no-cache no-store private must-revalidate auth;\n    gzip_types text/plain text/css text/xml text/javascript application/x-javascript application/javascript application/xml+rss application/json;\n\x7d",
     ?_⟩
  simp only [generateNginxConfig, serverLocation, clientLocation, hcl, hs]
  simp only [reduceIte]
  rw [serverLocationBlock_split, clientLocationBlock_split]
  simp only [String.append_assoc]

/-- Witness for C3 at the sample inputs. -/
theorem claim_C3_api_rule_before_catchall_witness :
    pSample.hasClient = true ∧ pSample.hasServer = true ∧
    ∃ pre mid post : String,
      generateNginxConfig cSample pSample =
        pre ++ "location /api/ \x7b" ++ mid ++ "location / \x7b" ++ post :=
  ⟨rfl, rfl, claim_C3_api_rule_before_catchall cSample pSample rfl rfl⟩

/-- A host where `.env` already exists at the project root with
operator-provided content, and nothing else is unusual. -/
def wEnvExists : World :=
  { commands := ["node", "npm", "pm2", "nginx", "chmod"]
    files := [("/app/.env", "OLD")]
    execOk := fun _ _ => true
    probe := fun _ => Except.error ()
    os := "linux"
    warnings := []
    errors := []
    out := []
    trace := [] }

/-- C4 (refuted — code bug): `Deployer.generateEnvironment` probes for an
existing `.env` with `SystemUtils.checkCommand("test -f " + envPath)`, but
`checkCommand` runs `which <arg>`, and `which "test -f /app/.env"` can
never succeed (no PATH entry is named by that composite string). So even
when `.env` exists, the step takes the not-exists branch and overwrites the
operator's file with the template: here the prior content `"OLD"` is
replaced by `envContent cSample`, while the step still reports success. -/
theorem claim_C4_existing_env_overwritten :
    getFile ((generateEnvironment cSample pSample wEnvExists).2).files
      "/app/.env" = some (envContent cSample) ∧
    envContent cSample ≠ "OLD" ∧
    (generateEnvironment cSample pSample wEnvExists).1 = Except.ok () :=
  ⟨by rfl, by decide, by rfl⟩

/-- Run equation: prerequisites check on a host with node and the package
manager installed. -/
lemma checkPrerequisites_run (p : NeexProject) (w : World)
    (h1 : w.commands.contains "node" = true)
    (h2 : w.commands.contains p.packageManager = true) :
    checkPrerequisites p w =
      (Except.ok (),
       { w with trace := w.trace ++ [Step.checkPrerequisites] }) := by
  have h1m : "node" ∈ w.commands := by simpa using h1
  have h2m : p.packageManager ∈ w.commands := by simpa using h2
  simp [checkPrerequisites, markStep, M.bind, M.pure, M.throw,
    SystemUtils.checkCommand, h1m, h2m]

/-- Run equation: build with both package-manager commands succeeding. -/
lemma buildProject_run (p : NeexProject) (w : World)
    (h1 : w.execOk p.packageManager ["install"] = true)
    (h2 : w.execOk p.packageManager ["run", "build"] = true) :
    buildProject p w =
      (Except.ok (), { w with trace := w.trace ++ [Step.build] }) := by
  simp [buildProject, markStep, M.bind, SystemUtils.executeCommand, h1, h2]

/-- Run equation: environment materialization when the (mis-implemented)
existence probe reports no `.env`: the template is written and the
advisory update warning logged. -/
lemma generateEnvironment_run_new (c : DeployConfig) (p : NeexProject)
    (w : World)
    (h : w.commands.contains ("test -f " ++ (p.rootPath ++ "/.env"))
      = false) :
    generateEnvironment c p w =
      (Except.ok (),
       { w with trace := w.trace ++ [Step.materializeEnv]
                files := setFile w.files (p.rootPath ++ "/.env")
                  (envContent c)
                warnings := w.warnings ++ [envUpdateWarnMsg] }) := by
  have hm : ¬ ("test -f " ++ (p.rootPath ++ "/.env")) ∈ w.commands := by
    simpa using h
  simp [generateEnvironment, markStep, M.bind, M.pure,
    SystemUtils.checkCommand, SystemUtils.writeFile, logWarning, hm]

/-- Run equation: `PM2Generator.start` when load, save and autostart
registration all succeed: no observable state change. -/
lemma PM2start_run_ok (c : DeployConfig) (p : NeexProject) (w : World)
    (hstart : w.execOk "pm2" ["start", "ecosystem.config.js"] = true)
    (hsave : w.execOk "pm2" ["save"] = true)
    (hstartup : w.execOk "pm2" ["startup"] = true) :
    PM2Generator.start c p w = (Except.ok (), w) := by
  cases hdel : w.execOk "pm2" ["delete", "all"] <;>
    cases hauto : c.autoStart <;>
    simp [PM2Generator.start, M.bind, M.tryCatch, M.pure, M.throw,
      SystemUtils.executeCommand, logWarning, logError,
      hdel, hauto, hstart, hsave, hstartup]

/-- Run equation: `PM2Generator.start` with `config.autoStart` set and
`pm2 startup` failing: the failure is downgraded to exactly one warning
and the operation still succeeds. -/
lemma PM2start_run_warn (c : DeployConfig) (p : NeexProject) (w : World)
    (hstart : w.execOk "pm2" ["start", "ecosystem.config.js"] = true)
    (hsave : w.execOk "pm2" ["save"] = true)
    (hstartup : w.execOk "pm2" ["startup"] = false)
    (hauto : c.autoStart = true) :
    PM2Generator.start c p w =
      (Except.ok (),
       { w with warnings := w.warnings ++ [autoStartWarnMsg] }) := by
  cases hdel : w.execOk "pm2" ["delete", "all"] <;>
    simp [PM2Generator.start, M.bind, M.tryCatch, M.pure, M.throw,
      SystemUtils.executeCommand, logWarning, logError,
      hdel, hauto, hstart, hsave, hstartup]

/-- Run equation: supervisor setup (pm2 present, all commands succeed,
autostart registration succeeds): only the manifest file is written. -/
lemma setupPM2_run_ok (c : DeployConfig) (p : NeexProject) (w : World)
    (hpm2 : w.commands.contains "pm2" = true)
    (hstart : w.execOk "pm2" ["start", "ecosystem.config.js"] = true)
    (hsave : w.execOk "pm2" ["save"] = true)
    (hstartup : w.execOk "pm2" ["startup"] = true) :
    setupPM2 c p w =
      (Except.ok (),
       { w with trace := w.trace ++ [Step.setupSupervisor]
                files := setFile w.files
                  (p.rootPath ++ "/ecosystem.config.js")
                  (generateEcosystemConfig c p) }) := by
  have hm : "pm2" ∈ w.commands := by simpa using hpm2
  simp [setupPM2, PM2Generator.install, PM2Generator.generate, markStep,
    M.bind, M.pure, SystemUtils.checkCommand, SystemUtils.writeFile,
    hm, PM2start_run_ok, hstart, hsave, hstartup]

/-- Run equation: supervisor setup with failing autostart registration:
the manifest is written and exactly one warning is recorded. -/
lemma setupPM2_run_warn (c : DeployConfig) (p : NeexProject) (w : World)
    (hpm2 : w.commands.contains "pm2" = true)
    (hstart : w.execOk "pm2" ["start", "ecosystem.config.js"] = true)
    (hsave : w.execOk "pm2" ["save"] = true)
    (hstartup : w.execOk "pm2" ["startup"] = false)
    (hauto : c.autoStart = true) :
    setupPM2 c p w =
      (Except.ok (),
       { w with trace := w.trace ++ [Step.setupSupervisor]
                files := setFile w.files
                  (p.rootPath ++ "/ecosystem.config.js")
                  (generateEcosystemConfig c p)
                warnings := w.warnings ++ [autoStartWarnMsg] }) := by
  have hm : "pm2" ∈ w.commands := by simpa using hpm2
  simp [setupPM2, PM2Generator.install, PM2Generator.generate, markStep,
    M.bind, M.pure, SystemUtils.checkCommand, SystemUtils.writeFile,
    hm, PM2start_run_warn, hstart, hsave, hstartup, hauto]

/-- Run equation: proxy setup with the nginx binary missing: no file is
written; the install warning and the downgraded manual-intervention
warning are recorded; the step succeeds. -/
lemma setupNginx_run_missing (c : DeployConfig) (p : NeexProject)
    (w : World) (h : w.commands.contains "nginx" = false) :
    setupNginx c p w =
      (Except.ok (),
       { w with trace := w.trace ++ [Step.setupProxy]
                warnings := w.warnings ++
                  [nginxMissingWarnMsg,
                   nginxManualWarnMsg nginxInstallErrMsg] }) := by
  have hm : ¬ "nginx" ∈ w.commands := by simpa using h
  simp [setupNginx, markStep, M.bind, M.tryCatch, M.pure, M.throw,
    NginxGenerator.install, NginxGenerator.generate,
    SystemUtils.checkCommand, SystemUtils.getOS, SystemUtils.writeFile,
    logWarning, hm]

/-- Run equation: proxy setup with nginx present: the routing document and
the setup instructions are written; no warning. -/
lemma setupNginx_run_present (c : DeployConfig) (p : NeexProject)
    (w : World) (h : w.commands.contains "nginx" = true) :
    setupNginx c p w =
      (Except.ok (),
       { w with trace := w.trace ++ [Step.setupProxy]
                files := setFile
                  (setFile w.files (getConfigPath c w.os)
                    (generateNginxConfig c p))
                  (p.rootPath ++ "/nginx-setup.md")
                  (generateSetupInstructions c w.os) }) := by
  have hm : "nginx" ∈ w.commands := by simpa using h
  simp [setupNginx, markStep, M.bind, M.tryCatch, M.pure, M.throw,
    NginxGenerator.install, NginxGenerator.generate,
    SystemUtils.checkCommand, SystemUtils.getOS, SystemUtils.writeFile,
    logWarning, hm]

/-- Run equation: management-script creation with both `chmod` calls
succeeding: both scripts are (over)written unconditionally. -/
lemma createManagementScripts_run (c : DeployConfig) (p : NeexProject)
    (w : World)
    (h1 : w.execOk "chmod" ["+x", "status.sh"] = true)
    (h2 : w.execOk "chmod" ["+x", "restart.sh"] = true) :
    createManagementScripts c p w =
      (Except.ok (),
       { w with trace := w.trace ++ [Step.manageScripts]
                files := setFile
                  (setFile w.files (p.rootPath ++ "/status.sh")
                    (statusScript c))
                  (p.rootPath ++ "/restart.sh") restartScript }) := by
  simp [createManagementScripts, markStep, M.bind,
    SystemUtils.executeCommand, SystemUtils.writeFile, h1, h2]

/-- Run equation: final checks when both probes fail (ports treated as
bound, services assumed running): no warning, no state change. -/
lemma performFinalChecks_run_bound (c : DeployConfig) (p : NeexProject)
    (w : World)
    (h1 : w.probe c.clientPort = Except.error ())
    (h2 : w.probe c.serverPort = Except.error ()) :
    performFinalChecks c p w =
      (Except.ok (), { w with trace := w.trace ++ [Step.verify] }) := by
  cases hhc : p.hasClient <;> cases hhs : p.hasServer <;>
    simp [performFinalChecks, markStep, M.bind, M.pure,
      SystemUtils.isPortAvailable, logWarning, hhc, hhs, h1, h2]

/-- C5: the proxy controller's install is fatal-by-design when the binary
is absent, but the pipeline catches everything the proxy controller
raises, downgrades it to the manual-intervention warning, runs every
remaining step, and completes successfully (trace reaches `done`). -/
theorem claim_C5_proxy_failure_downgraded
    (c : DeployConfig) (p : NeexProject) (w : World)
    (hnc : c.nginxConfig = true)
    (hnode : w.commands.contains "node" = true)
    (hpm : w.commands.contains p.packageManager = true)
    (hpm2 : w.commands.contains "pm2" = true)
    (hnginx : w.commands.contains "nginx" = false)
    (henv : w.commands.contains ("test -f " ++ (p.rootPath ++ "/.env"))
      = false)
    (hexec : ∀ cmd args, w.execOk cmd args = true)
    (hprobeC : w.probe c.clientPort = Except.error ())
    (hprobeS : w.probe c.serverPort = Except.error ()) :
    (NginxGenerator.install w).1 = Except.error nginxInstallErrMsg ∧
    (deploy c p w).1 = Except.ok () ∧
    ((deploy c p w).2).trace = w.trace ++ fullSteps c ∧
    nginxManualWarnMsg nginxInstallErrMsg ∈ ((deploy c p w).2).warnings := by
  have hnodeM : "node" ∈ w.commands := by simpa using hnode
  have hpmM : p.packageManager ∈ w.commands := by simpa using hpm
  have hpm2M : "pm2" ∈ w.commands := by simpa using hpm2
  have hnginxM : ¬ "nginx" ∈ w.commands := by simpa using hnginx
  have henvM : ¬ ("test -f " ++ (p.rootPath ++ "/.env")) ∈ w.commands := by
    simpa using henv
  refine ⟨?_, ?_, ?_, ?_⟩
  · simp [NginxGenerator.install, M.bind, M.pure, M.throw, logWarning,
      SystemUtils.checkCommand, hnginxM]
  · simp [deploy, deployBody, M.bind, M.tryCatch, markStep, output,
      checkPrerequisites_run, buildProject_run, generateEnvironment_run_new,
      setupPM2_run_ok, setupNginx_run_missing, createManagementScripts_run,
      performFinalChecks_run_bound, hnc, hnode, hpm, hpm2, hnginx, henv,
      hnodeM, hpmM, hpm2M, hnginxM, henvM, hexec, hprobeC, hprobeS]
  · simp [deploy, deployBody, M.bind, M.tryCatch, markStep, output,
      checkPrerequisites_run, buildProject_run, generateEnvironment_run_new,
      setupPM2_run_ok, setupNginx_run_missing, createManagementScripts_run,
      performFinalChecks_run_bound, hnc, hnode, hpm, hpm2, hnginx, henv,
      hnodeM, hpmM, hpm2M, hnginxM, henvM, hexec, hprobeC, hprobeS,
      fullSteps]
  · simp [deploy, deployBody, M.bind, M.tryCatch, markStep, output,
      checkPrerequisites_run, buildProject_run, generateEnvironment_run_new,
      setupPM2_run_ok, setupNginx_run_missing, createManagementScripts_run,
      performFinalChecks_run_bound, hnc, hnode, hpm, hpm2, hnginx, henv,
      hnodeM, hpmM, hpm2M, hnginxM, henvM, hexec, hprobeC, hprobeS]

/-- A host like `wSample` but with the nginx binary absent. -/
def wNoNginx : World :=
  { commands := ["node", "npm", "pm2", "chmod"]
    files := []
    execOk := fun _ _ => true
    probe := fun _ => Except.error ()
    os := "linux"
    warnings := []
    errors := []
    out := []
    trace := [] }

/-- Witness for C5: with nginx absent and everything else fine, the sample
deployment still succeeds and records the manual-intervention warning. -/
theorem claim_C5_proxy_failure_downgraded_witness :
    (deploy cSample pSample wNoNginx).1 = Except.ok () ∧
    nginxManualWarnMsg nginxInstallErrMsg ∈
      ((deploy cSample pSample wNoNginx).2).warnings :=
  ⟨(claim_C5_proxy_failure_downgraded cSample pSample wNoNginx rfl rfl rfl
      rfl rfl rfl (fun _ _ => rfl) rfl rfl).2.1,
   (claim_C5_proxy_failure_downgraded cSample pSample wNoNginx rfl rfl rfl
      rfl rfl rfl (fun _ _ => rfl) rfl rfl).2.2.2⟩

/-- C6: with `config.autoStart` set, a `pm2 startup` (boot-time autostart
registration) failure during supervisor start is caught and recorded as a
warning only: the start operation succeeds and appends exactly that one
warning; and when everything else succeeds the whole pipeline succeeds,
with the autostart warning recorded exactly once (the only other warning
of such a run is the advisory `.env`-update note). -/
theorem claim_C6_autostart_failure_downgraded
    (c : DeployConfig) (p : NeexProject) (w : World)
    (hauto : c.autoStart = true)
    (hstart : w.execOk "pm2" ["start", "ecosystem.config.js"] = true)
    (hsave : w.execOk "pm2" ["save"] = true)
    (hstartup : w.execOk "pm2" ["startup"] = false)
    (hnc : c.nginxConfig = true)
    (hnode : w.commands.contains "node" = true)
    (hpm : w.commands.contains p.packageManager = true)
    (hpm2 : w.commands.contains "pm2" = true)
    (hnginx : w.commands.contains "nginx" = true)
    (henv : w.commands.contains ("test -f " ++ (p.rootPath ++ "/.env"))
      = false)
    (hinstall : w.execOk p.packageManager ["install"] = true)
    (hbuild : w.execOk p.packageManager ["run", "build"] = true)
    (hchmod1 : w.execOk "chmod" ["+x", "status.sh"] = true)
    (hchmod2 : w.execOk "chmod" ["+x", "restart.sh"] = true)
    (hprobeC : w.probe c.clientPort = Except.error ())
    (hprobeS : w.probe c.serverPort = Except.error ()) :
    (PM2Generator.start c p w).1 = Except.ok () ∧
    ((PM2Generator.start c p w).2).warnings =
      w.warnings ++ [autoStartWarnMsg] ∧
    (deploy c p w).1 = Except.ok () ∧
    ((deploy c p w).2).warnings =
      w.warnings ++ [envUpdateWarnMsg, autoStartWarnMsg] := by
  have hnodeM : "node" ∈ w.commands := by simpa using hnode
  have hpmM : p.packageManager ∈ w.commands := by simpa using hpm
  have hpm2M : "pm2" ∈ w.commands := by simpa using hpm2
  have hnginxM : "nginx" ∈ w.commands := by simpa using hnginx
  have henvM : ¬ ("test -f " ++ (p.rootPath ++ "/.env")) ∈ w.commands := by
    simpa using henv
  refine ⟨?_, ?_, ?_, ?_⟩
  · rw [PM2start_run_warn c p w hstart hsave hstartup hauto]
  · rw [PM2start_run_warn c p w hstart hsave hstartup hauto]
  · simp [deploy, deployBody, M.bind, M.tryCatch, markStep, output,
      checkPrerequisites_run, buildProject_run, generateEnvironment_run_new,
      setupPM2_run_warn, setupNginx_run_present, createManagementScripts_run,
      performFinalChecks_run_bound, hauto, hstart, hsave, hstartup, hnc,
      hnode, hpm, hpm2, hnginx, henv, hnodeM, hpmM, hpm2M, hnginxM, henvM,
      hinstall, hbuild, hchmod1, hchmod2, hprobeC, hprobeS]
  · simp [deploy, deployBody, M.bind, M.tryCatch, markStep, output,
      checkPrerequisites_run, buildProject_run, generateEnvironment_run_new,
      setupPM2_run_warn, setupNginx_run_present, createManagementScripts_run,
      performFinalChecks_run_bound, hauto, hstart, hsave, hstartup, hnc,
      hnode, hpm, hpm2, hnginx, henv, hnodeM, hpmM, hpm2M, hnginxM, henvM,
      hinstall, hbuild, hchmod1, hchmod2, hprobeC, hprobeS]

/-- A host like `wSample` except that `pm2 startup` fails (no elevated
privilege). -/
def wStartupFails : World :=
  { commands := ["node", "npm", "pm2", "nginx", "chmod"]
    files := []
    execOk := fun cmd args => !(cmd == "pm2" && args == ["startup"])
    probe := fun _ => Except.error ()
    os := "linux"
    warnings := []
    errors := []
    out := []
    trace := [] }

/-- Witness for C6: the sample deployment with failing `pm2 startup`
succeeds, and the warning log is exactly the `.env` advisory note followed
by the single autostart warning. -/
theorem claim_C6_autostart_failure_downgraded_witness :
    (deploy cSample pSample wStartupFails).1 = Except.ok () ∧
    ((deploy cSample pSample wStartupFails).2).warnings =
      [envUpdateWarnMsg, autoStartWarnMsg] :=
  ⟨(claim_C6_autostart_failure_downgraded cSample pSample wStartupFails
      rfl rfl rfl rfl rfl rfl rfl rfl rfl rfl rfl rfl rfl rfl rfl
      rfl).2.2.1,
   (claim_C6_autostart_failure_downgraded cSample pSample wStartupFails
      rfl rfl rfl rfl rfl rfl rfl rfl rfl rfl rfl rfl rfl rfl rfl
      rfl).2.2.2⟩

/-- C7: manifest and routing-document generation are pure, deterministic
functions: identical inputs give byte-identical output strings (they are
functions of `(config, project)` alone), and the effectful wrappers around
them perform exactly the declared artifact writes — no external-process
invocation, no log output, no other state change, on any host state. -/
theorem claim_C7_generation_pure_deterministic
    (c c2 : DeployConfig) (p p2 : NeexProject)
    (hc : c = c2) (hp : p = p2) :
    generateEcosystemConfig c p = generateEcosystemConfig c2 p2 ∧
    generateNginxConfig c p = generateNginxConfig c2 p2 ∧
    (∀ w : World,
      PM2Generator.generate c p w =
        (Except.ok (),
         { w with files := setFile w.files
                    (p.rootPath ++ "/ecosystem.config.js")
                    (generateEcosystemConfig c p) }) ∧
      NginxGenerator.generate c p w =
        (Except.ok (),
         { w with files := setFile
                    (setFile w.files (getConfigPath c w.os)
                      (generateNginxConfig c p))
                    (p.rootPath ++ "/nginx-setup.md")
                    (generateSetupInstructions c w.os) })) := by
  subst hc hp
  refine ⟨rfl, rfl, fun w => ⟨rfl, ?_⟩⟩
  simp [NginxGenerator.generate, M.bind, SystemUtils.getOS,
    SystemUtils.writeFile]

/-- Witness for C7 at the sample inputs. -/
theorem claim_C7_generation_pure_deterministic_witness :
    generateEcosystemConfig cSample pSample =
      generateEcosystemConfig cSample pSample ∧
    PM2Generator.generate cSample pSample wSample =
      (Except.ok (),
       { wSample with files := setFile wSample.files
                         (pSample.rootPath ++ "/ecosystem.config.js")
                         (generateEcosystemConfig cSample pSample) }) :=
  ⟨(claim_C7_generation_pure_deterministic cSample cSample pSample pSample
      rfl rfl).1,
   ((claim_C7_generation_pure_deterministic cSample cSample pSample pSample
      rfl rfl).2.2 wSample).1⟩

/-- Looking up the path just written returns the new content. -/
lemma getFile_setFile_same (fs : List (String × String)) (a ca : String) :
    getFile (setFile fs a ca) a = some ca := by
  simp [getFile, setFile]

/-- Filtering out the entries for path `a` does not change a lookup for a
different path `b`. -/
lemma find_filter_other (a b : String) (h : b ≠ a)
    (fs : List (String × String)) :
    (fs.filter (fun e => !(e.1 == a))).find? (fun e => e.1 == b) =
      fs.find? (fun e => e.1 == b) := by
  induction fs with
  | nil => rfl
  | cons e t ih =>
    rw [List.filter_cons]
    by_cases hea : e.1 = a
    · have h1 : (e.1 == a) = true := beq_iff_eq.mpr hea
      have h2 : (e.1 == b) = false := by
        rw [hea]
        exact beq_eq_false_iff_ne.mpr (fun he => h he.symm)
      simp [h1, List.find?_cons_of_neg, h2, ih]
    · have h1 : (e.1 == a) = false := beq_eq_false_iff_ne.mpr hea
      cases heb : (e.1 == b)
      · simp [h1, List.find?_cons_of_neg, heb, ih]
      · simp [h1, List.find?_cons_of_pos, heb]

/-- Writing one path leaves lookups of any other path unchanged. -/
lemma getFile_setFile_other (fs : List (String × String))
    (a b ca : String) (h : b ≠ a) :
    getFile (setFile fs a ca) b = getFile fs b := by
  unfold getFile setFile
  have hba : ((a, ca).1 == b) = false := by
    simp only []
    exact beq_eq_false_iff_ne.mpr (fun he => h he.symm)
  rw [List.find?_cons_of_neg _ (by simp [hba]), find_filter_other a b h]

/-- C10: on any run reaching the management-scripts step (first chmod
succeeding; the files themselves are written before each chmod), both
`status.sh` and `restart.sh` at the project root end up holding the freshly
generated scripts, regardless of what was previously stored at those paths
— there is no existence check, unlike the environment file. -/
theorem claim_C10_scripts_overwritten
    (c : DeployConfig) (p : NeexProject) (w : World)
    (h1 : w.execOk "chmod" ["+x", "status.sh"] = true)
    (h2 : w.execOk "chmod" ["+x", "restart.sh"] = true) :
    getFile ((createManagementScripts c p w).2).files
      (p.rootPath ++ "/status.sh") = some (statusScript c) ∧
    getFile ((createManagementScripts c p w).2).files
      (p.rootPath ++ "/restart.sh") = some restartScript ∧
    (createManagementScripts c p w).1 = Except.ok () := by
  rw [createManagementScripts_run c p w h1 h2]
  refine ⟨?_, ?_, rfl⟩
  · rw [getFile_setFile_other _ _ _ _
      (appendRight_ne (by decide)), getFile_setFile_same]
  · rw [getFile_setFile_same]

/-- A computation that always succeeds and changes nothing but appending to
the warning log. -/
def warnOnly (x : M Unit) : Prop :=
  ∀ w, ∃ ws, x w = (Except.ok (), { w with warnings := w.warnings ++ ws })

lemma warnOnly_pure : warnOnly (M.pure ()) :=
  fun w => ⟨[], by simp [M.pure]⟩

lemma warnOnly_logWarning (msg : String) : warnOnly (logWarning msg) :=
  fun w => ⟨[msg], by simp [logWarning]⟩

lemma warnOnly_bind {x y : M Unit} (hx : warnOnly x) (hy : warnOnly y) :
    warnOnly (M.bind x (fun _ => y)) := by
  intro w
  obtain ⟨ws1, h1⟩ := hx w
  obtain ⟨ws2, h2⟩ := hy { w with warnings := w.warnings ++ ws1 }
  refine ⟨ws1 ++ ws2, ?_⟩
  rw [bind_ok h1, h2]
  simp [List.append_assoc]

lemma warnOnly_ite {c : Prop} [Decidable c] {x y : M Unit}
    (hx : warnOnly x) (hy : warnOnly y) : warnOnly (if c then x else y) := by
  split
  · exact hx
  · exact hy

/-- One port check of `performFinalChecks`: always succeeds, and at most
appends the advisory warning. -/
lemma warnOnly_portCheck (port : Nat) (msg : String) :
    warnOnly (M.bind (SystemUtils.isPortAvailable port)
      (fun b => if b then logWarning msg else M.pure ())) := by
  intro w
  cases hpr : w.probe port with
  | ok n =>
    cases hn : n == port
    · exact ⟨[], by simp [M.bind, M.pure, SystemUtils.isPortAvailable,
        logWarning, hpr, hn]⟩
    · exact ⟨[msg], by simp [M.bind, M.pure, SystemUtils.isPortAvailable,
        logWarning, hpr, hn]⟩
  | error e =>
    exact ⟨[], by simp [M.bind, M.pure, SystemUtils.isPortAvailable,
      logWarning, hpr]⟩

/-- `Deployer.performFinalChecks` always succeeds and changes nothing but
the warning log (and the step trace). -/
lemma performFinalChecks_spec (c : DeployConfig) (p : NeexProject)
    (w : World) :
    ∃ ws, performFinalChecks c p w =
      (Except.ok (),
       { w with trace := w.trace ++ [Step.verify]
                warnings := w.warnings ++ ws }) := by
  have hbody :
      warnOnly (M.bind
        (if p.hasClient then
          M.bind (SystemUtils.isPortAvailable c.clientPort)
            (fun b => if b then logWarning (clientPortWarnMsg c)
              else M.pure ())
         else M.pure ())
        (fun _ =>
          if p.hasServer then
            M.bind (SystemUtils.isPortAvailable c.serverPort)
              (fun b => if b then logWarning (serverPortWarnMsg c)
                else M.pure ())
          else M.pure ())) :=
    warnOnly_bind
      (warnOnly_ite (warnOnly_portCheck _ _) warnOnly_pure)
      (warnOnly_ite (warnOnly_portCheck _ _) warnOnly_pure)
  obtain ⟨ws, h⟩ := hbody { w with trace := w.trace ++ [Step.verify] }
  refine ⟨ws, ?_⟩
  have hm : markStep Step.verify w =
      (Except.ok (), { w with trace := w.trace ++ [Step.verify] }) := rfl
  simp only [performFinalChecks, bind_ok hm]
  rw [h]

/-- C8: the port probe reports "bound" (result `false`, service assumed
running) exactly when the free-port probe errs or returns a different port
than requested; probing never propagates an error to the caller; and the
verification step can only append warnings — it always succeeds and leaves
every other part of the state unchanged. -/
theorem claim_C8_port_verification_semantics
    (c : DeployConfig) (p : NeexProject) (w : World) (port : Nat) :
    ((SystemUtils.isPortAvailable port w).1 = Except.ok false ↔
      (∃ n, w.probe port = Except.ok n ∧ n ≠ port) ∨
        w.probe port = Except.error ()) ∧
    (SystemUtils.isPortAvailable port w).2 = w ∧
    (∃ b, (SystemUtils.isPortAvailable port w).1 = Except.ok b) ∧
    (∃ ws, performFinalChecks c p w =
      (Except.ok (),
       { w with trace := w.trace ++ [Step.verify]
                warnings := w.warnings ++ ws })) := by
  refine ⟨?_, ?_, ?_, performFinalChecks_spec c p w⟩
  · cases hpr : w.probe port with
    | ok n =>
      simp [SystemUtils.isPortAvailable, hpr, beq_eq_false_iff_ne]
    | error e =>
      cases e
      simp [SystemUtils.isPortAvailable, hpr]
  · cases hpr : w.probe port <;> simp [SystemUtils.isPortAvailable, hpr]
  · cases hpr : w.probe port <;> simp [SystemUtils.isPortAvailable, hpr]

/-- Witness for C8: on the sample host the probe errs, so the requested
port is reported bound. -/
theorem claim_C8_port_verification_semantics_witness :
    (SystemUtils.isPortAvailable 3000 wSample).1 = Except.ok false :=
  ((claim_C8_port_verification_semantics cSample pSample wSample 3000).1).mpr
    (Or.inr rfl)

/-- A report line is a Public-URL line when it starts with the fixed
`   Public:   http://` prefix that only `printPostDeploymentInfo`'s public
line carries. -/
def isPublicLine (l : String) : Bool :=
  "   Public:   http://".data.isPrefixOf l.data

/-- A list that is not a prefix of `a` is not a prefix of `a ++ b` either,
provided it is no longer than `a`. -/
lemma not_prefix_append {p a : List Char} (b : List Char)
    (hlen : p.length ≤ a.length) (h : ¬ p <+: a) : ¬ p <+: a ++ b := by
  intro hp
  apply h
  rw [List.prefix_iff_eq_take] at hp ⊢
  rwa [List.take_append_of_le_length hlen] at hp

lemma isPublicLine_frontend (c : DeployConfig) :
    isPublicLine (frontendLine c) = false := by
  unfold isPublicLine frontendLine
  rw [String.data_append, Bool.eq_false_iff, Ne,
    List.isPrefixOf_iff_prefix]
  exact not_prefix_append _ (by decide) (by decide)

lemma isPublicLine_backend (c : DeployConfig) :
    isPublicLine (backendLine c) = false := by
  unfold isPublicLine backendLine
  rw [String.data_append, Bool.eq_false_iff, Ne,
    List.isPrefixOf_iff_prefix]
  exact not_prefix_append _ (by decide) (by decide)

lemma isPublicLine_public (c : DeployConfig) :
    isPublicLine (publicLine c) = true := by
  unfold isPublicLine publicLine
  rw [String.data_append, List.isPrefixOf_iff_prefix]
  exact List.prefix_append _ _

/-- C9: the final report lists the local frontend/backend URL line for each
enabled subsystem, and contains a Public-URL line if and only if the
configured domain differs from `localhost`. -/
theorem claim_C9_final_report (c : DeployConfig) (p : NeexProject) :
    (p.hasClient = true → frontendLine c ∈ postInfoLines c p) ∧
    (p.hasServer = true → backendLine c ∈ postInfoLines c p) ∧
    ((∃ l ∈ postInfoLines c p, isPublicLine l = true) ↔
      c.domain ≠ "localhost") := by
  refine ⟨?_, ?_, ?_, ?_⟩
  · intro h; simp [postInfoLines, h]
  · intro h; simp [postInfoLines, h]
  · rintro ⟨l, hl, hpub⟩ hdom
    cases hhc : p.hasClient <;> cases hhs : p.hasServer <;>
      cases hnc : c.nginxConfig <;>
      simp [postInfoLines, hdom, hhc, hhs, hnc] at hl <;>
      casesm* _ ∨ _ <;>
      subst_vars <;>
      first
        | exact absurd hpub (by decide)
        | (rw [isPublicLine_frontend] at hpub
           exact absurd hpub (by decide))
        | (rw [isPublicLine_backend] at hpub
           exact absurd hpub (by decide))
  · intro hd
    exact ⟨publicLine c, by simp [postInfoLines, hd],
      isPublicLine_public c⟩

/-- Witness for C9 at the sample inputs: both local URL lines are listed,
and (domain `localhost`) no Public line is present. -/
theorem claim_C9_final_report_witness :
    frontendLine cSample ∈ postInfoLines cSample pSample ∧
    backendLine cSample ∈ postInfoLines cSample pSample ∧
    ¬ ∃ l ∈ postInfoLines cSample pSample, isPublicLine l = true :=
  ⟨(claim_C9_final_report cSample pSample).1 rfl,
   (claim_C9_final_report cSample pSample).2.1 rfl,
   fun hex =>
    ((claim_C9_final_report cSample pSample).2.2).mp hex rfl⟩

/-- A host where both management scripts already exist with old content. -/
def wScriptsExist : World :=
  { commands := ["node", "npm", "pm2", "nginx", "chmod"]
    files := [("/app/status.sh", "OLD-STATUS"), ("/app/restart.sh", "OLD-RESTART")]
    execOk := fun _ _ => true
    probe := fun _ => Except.error ()
    os := "linux"
    warnings := []
    errors := []
    out := []
    trace := [] }

/-- Witness for C10: pre-existing `status.sh`/`restart.sh` are replaced by
the freshly generated scripts. -/
theorem claim_C10_scripts_overwritten_witness :
    getFile ((createManagementScripts cSample pSample wScriptsExist).2).files
      (pSample.rootPath ++ "/status.sh") = some (statusScript cSample) ∧
    getFile ((createManagementScripts cSample pSample wScriptsExist).2).files
      (pSample.rootPath ++ "/restart.sh") = some restartScript :=
  ⟨(claim_C10_scripts_overwritten cSample pSample wScriptsExist rfl rfl).1,
   (claim_C10_scripts_overwritten cSample pSample wScriptsExist rfl
      rfl).2.1⟩
